import Mathlib

/-
  Verification development for the jarvis chat client
  (src/jarvis/providers.py, src/jarvis/cli.py, src/jarvis/config.py).

  The Python code is shallowly embedded: Python strings are Lean `String`s,
  and the handful of Python string methods the code uses (`startswith`,
  slicing `[2:]`, `strip`, `capitalize`, `"sep".join`) are re-implemented
  over `String.data` so that they are executable and kernel-reducible.
  Vendor network interactions are abstracted by explicit outcome values
  (delivered stream chunks plus an optional raised failure); an async
  generator is denoted by the finite list of fragments it yields.
-/

namespace Jarvis

/-- Python `s.startswith(p)` on code-point sequences. -/
def pyStartsWith (s p : String) : Bool :=
  p.data.isPrefixOf s.data

/-- Python slicing `s[n:]` (dropping the first `n` code points). -/
def pyDrop (s : String) (n : Nat) : String :=
  String.mk (s.data.drop n)

/-- Python `s.strip()`: remove leading and trailing whitespace. -/
def pyStrip (s : String) : String :=
  String.mk (((s.data.dropWhile Char.isWhitespace).reverse.dropWhile Char.isWhitespace).reverse)

/-- Python `s.capitalize()`: first code point upper-cased, the rest lower-cased. -/
def pyCapitalize (s : String) : String :=
  match s.data with
  | [] => ""
  | c :: cs => String.mk (c.toUpper :: cs.map Char.toLower)

/-- Python `sep.join(xs)`. -/
def pyJoin (sep : String) : List String → String
  | [] => ""
  | [x] => x
  | x :: y :: xs => x ++ sep ++ pyJoin sep (y :: xs)

/-- A transcript entry: `{"role": ..., "content": ...}` (providers.py, cli.py). -/
structure Message where
  role : String
  content : String
deriving DecidableEq, Repr

/-- Truthiness filter applied to a streamed chunk payload
(`if chunk.choices[0].delta.content:` in providers.py line 58,
`if chunk.completion:` in line 83): the payload passes iff it is
present and non-empty. -/
def chunkText : Option String → Option String
  | some s => if s = "" then none else some s
  | none => none

/-- Abstraction of one streamed vendor call: the per-chunk payloads the
vendor delivered, followed by an optional exception raised afterwards
(raised at request time when `chunks = []`). -/
structure VendorStream where
  chunks : List (Option String)
  failure : Option String
deriving DecidableEq, Repr

/-- The `except Exception as e: ... yield f"Error: {str(e)}"` tail shared by
all three adapters (providers.py lines 60-62, 85-87, 131-133). -/
def errorFragments : Option String → List String
  | some e => ["Error: " ++ e]
  | none => []

/-- providers.py lines 48-62: `OpenAIProvider.generate_response`. The
transcript is sent as-is; each delivered chunk with truthy
`delta.content` is yielded; a raised exception is caught and yielded as
one `"Error: ..."` fragment. -/
def OpenAIProvider.generate_response (messages : List Message) (v : VendorStream) : List String :=
  v.chunks.filterMap chunkText ++ errorFragments v.failure

/-- providers.py line 74: the Anthropic prompt flattening
`"\n".join(f"{m['role'].capitalize()}: {m['content']}" for m in messages) + "\nAssistant:"`. -/
def AnthropicProvider.prompt (messages : List Message) : String :=
  pyJoin "\n" (messages.map (fun m => pyCapitalize m.role ++ ": " ++ m.content)) ++ "\nAssistant:"

/-- providers.py lines 71-87: `AnthropicProvider.generate_response`. Chunks
carry `chunk.completion`; truthy ones are yielded; a raised exception is
caught and yielded as one `"Error: ..."` fragment. -/
def AnthropicProvider.generate_response (messages : List Message) (v : VendorStream) : List String :=
  v.chunks.filterMap chunkText ++ errorFragments v.failure

/-- A Gemini history entry `{"role": ..., "parts": [...]}` (providers.py
lines 113-115). -/
structure GTurn where
  role : String
  parts : List String
deriving DecidableEq, Repr

/-- providers.py lines 100-107: the first pass over `messages`, recording the
content of the (last) system message and collecting the non-system
messages in order. -/
def geminiSplit (messages : List Message) : Option String × List Message :=
  messages.foldl
    (fun acc m =>
      if m.role = "system" then (some m.content, acc.2) else (acc.1, acc.2 ++ [m]))
    (none, [])

/-- providers.py lines 110-115: the second pass, mapping each filtered
message to a Gemini turn (`user` stays `user`, `assistant` becomes
`model`, anything else is dropped). -/
def geminiTurns (filtered : List Message) : List GTurn :=
  filtered.foldl
    (fun h m =>
      if m.role = "user" then h ++ [⟨"user", [m.content]⟩]
      else if m.role = "assistant" then h ++ [⟨"model", [m.content]⟩]
      else h)
    []

/-- providers.py lines 118-120: if the first history entry is a user turn,
replace the head of its parts with `system_content ++ "\n\n" ++ parts[0]`;
otherwise leave the history unchanged. -/
def prependSystem (s : String) : List GTurn → List GTurn
  | [] => []
  | t :: rest =>
    if t.role = "user" then
      GTurn.mk t.role
        (match t.parts with
          | p :: ps => (s ++ "\n\n" ++ p) :: ps
          | [] => []) :: rest
    else t :: rest

/-- providers.py lines 99-120: the complete Gemini history construction.
The prepend step runs only when the recorded system content is truthy
(present and non-empty, Python `if system_content and history:`); the
empty-history guard is absorbed by `prependSystem [] = []`. -/
def GeminiProvider.history (messages : List Message) : List GTurn :=
  let split := geminiSplit messages
  let hist := geminiTurns split.2
  match split.1 with
  | some s => if s = "" then hist else prependSystem s hist
  | none => hist

/-- Abstraction of the single non-streamed Gemini call (providers.py
lines 123-130): it either produces `response.text` or raises. -/
inductive GeminiOutcome where
  | success (text : String)
  | failure (message : String)
deriving DecidableEq, Repr

/-- providers.py lines 97-133: `GeminiProvider.generate_response`. One call,
one yielded fragment: either the response text or the caught
`"Error: ..."` string. -/
def GeminiProvider.generate_response (messages : List Message) (r : GeminiOutcome) : List String :=
  match r with
  | GeminiOutcome.success t => [t]
  | GeminiOutcome.failure e => ["Error: " ++ e]

/-- `async_gen.__anext__()` on the denotation of an async generator:
either the next chunk plus the remaining stream, or `StopAsyncIteration`. -/
def anext (g : List String) : Except Unit (String × List String) :=
  match g with
  | [] => Except.error ()
  | c :: rest => Except.ok (c, rest)

/-- providers.py lines 26-39: `AIProvider.generate_response_sync` pumps the
async generator one `__anext__` at a time, yielding every chunk, and
stops on `StopAsyncIteration`. -/
def AIProvider.generate_response_sync (g : List String) : List String :=
  match h : anext g with
  | Except.error _ => []
  | Except.ok (c, rest) => c :: AIProvider.generate_response_sync rest
termination_by g.length
decreasing_by
  cases g with
  | nil => simp [anext] at h
  | cons x xs =>
    simp [anext] at h
    simp [← h.2]

/-- config.py lines 9-13: per-provider optional secrets. `none` models an
absent key; `some ""` models a present-but-empty secret. -/
structure APIConfig where
  openai_api_key : Option String
  anthropic_api_key : Option String
  gemini_api_key : Option String
deriving DecidableEq, Repr

/-- config.py lines 15-19: shared generation settings. -/
structure ModelConfig where
  name : String
  temperature : Rat
  max_tokens : Nat
deriving DecidableEq, Repr

/-- config.py lines 21-25: the main configuration record. -/
structure Config where
  api : APIConfig
  model : ModelConfig
  default_provider : String
deriving DecidableEq, Repr

/-- Python truthiness of an optional `SecretStr` (`if self.api.openai_api_key:`):
true iff the secret is present and non-empty (pydantic `SecretStr` delegates
its length to the wrapped string). -/
def secretTruthy : Option String → Bool
  | some s => s != ""
  | none => false

/-- config.py lines 79-88: `Config.get_available_providers`, appending
`"openai"`, `"claude"`, `"gemini"` in that order for each truthy key. -/
def Config.get_available_providers (c : Config) : List String :=
  (if secretTruthy c.api.openai_api_key then ["openai"] else []) ++
  (if secretTruthy c.api.anthropic_api_key then ["claude"] else []) ++
  (if secretTruthy c.api.gemini_api_key then ["gemini"] else [])

/-- The vendor an adapter instance is bound to. -/
inductive AdapterKind where
  | openai
  | anthropic
  | gemini
deriving DecidableEq, Repr

/-- The observable state of a constructed adapter: vendor, unwrapped
credential, and the shared generation settings stored by
`AIProvider.__init__` (providers.py lines 15-19). -/
structure ProviderHandle where
  kind : AdapterKind
  api_key : String
  model : String
  temperature : Rat
  max_tokens : Nat
deriving DecidableEq, Repr

/-- `key.get_secret_value()` as called in each adapter constructor
(providers.py lines 46, 69, 94): succeeds on a present secret and raises
on `None`. -/
def getSecretValue : Option String → Except String String
  | some s => Except.ok s
  | none => Except.error "AttributeError: NoneType object has no attribute get_secret_value"

/-- One adapter constructor: unwrap the credential, store it with the
shared settings (providers.py lines 15-19 and 44-46/67-69/92-95). -/
def mkProvider (kind : AdapterKind) (key : Option String) (m : ModelConfig) :
    Except String ProviderHandle :=
  match getSecretValue key with
  | Except.ok s => Except.ok ⟨kind, s, m.name, m.temperature, m.max_tokens⟩
  | Except.error e => Except.error e

/-- providers.py lines 135-161: the `get_provider` factory. A name outside
the supported table raises `ValueError(f"Unknown provider: {name}")`;
otherwise the matching adapter is constructed with that vendor's
credential and the shared model settings. -/
def get_provider (name : String) (config : Config) : Except String ProviderHandle :=
  if name = "openai" then mkProvider AdapterKind.openai config.api.openai_api_key config.model
  else if name = "claude" then mkProvider AdapterKind.anthropic config.api.anthropic_api_key config.model
  else if name = "gemini" then mkProvider AdapterKind.gemini config.api.gemini_api_key config.model
  else Except.error ("Unknown provider: " ++ name)

/-- The per-iteration override decision of cli.py lines 80-101: which
provider serves this turn, the input text after prefix stripping, and
whether the unavailable-provider warning was printed. -/
structure TurnDecision where
  provider : String
  text : String
  warned : Bool
deriving DecidableEq, Repr

/-- cli.py lines 80-101: `current_provider` starts as the session default
every iteration; a recognized `"g:"`/`"o:"`/`"c:"` input has the marker
stripped (`user_input[2:].strip()`) and selects that provider iff it is
available, warning and keeping the default otherwise; any other input is
taken literally with the default provider. -/
def decideTurn (deflt : String) (available : List String) (input : String) : TurnDecision :=
  if pyStartsWith input "g:" then
    let t := pyStrip (pyDrop input 2)
    if available.contains "gemini" then ⟨"gemini", t, false⟩ else ⟨deflt, t, true⟩
  else if pyStartsWith input "o:" then
    let t := pyStrip (pyDrop input 2)
    if available.contains "openai" then ⟨"openai", t, false⟩ else ⟨deflt, t, true⟩
  else if pyStartsWith input "c:" then
    let t := pyStrip (pyDrop input 2)
    if available.contains "claude" then ⟨"claude", t, false⟩ else ⟨deflt, t, true⟩
  else ⟨deflt, input, false⟩

/-- cli.py lines 74-127: one iteration of `chat_loop` on input `input`,
with `gen p ms` abstracting the fragment stream produced by provider `p`
on transcript `ms`. Empty post-stripping text abandons the turn (line
104); otherwise the user turn is appended, the selected provider is
invoked on the grown transcript, and the concatenated fragments are
appended as the assistant turn (lines 107-127). -/
def chatTurn (deflt : String) (available : List String)
    (gen : String → List Message → List String)
    (msgs : List Message) (input : String) : List Message :=
  let d := decideTurn deflt available input
  if d.text = "" then msgs
  else
    let withUser := msgs ++ [⟨"user", d.text⟩]
    withUser ++ [⟨"assistant", String.join (gen d.provider withUser)⟩]

/-- The chat loop over a whole list of inputs: the transcript after
folding `chatTurn` over them. -/
def chatRun (deflt : String) (available : List String)
    (gen : String → List Message → List String) :
    List Message → List String → List Message
  | msgs, [] => msgs
  | msgs, i :: rest => chatRun deflt available gen (chatTurn deflt available gen msgs i) rest

/-- The per-iteration decisions taken while running the chat loop over a
list of inputs, in order. -/
def chatDecisions (deflt : String) (available : List String)
    (gen : String → List Message → List String) :
    List Message → List String → List TurnDecision
  | _, [] => []
  | msgs, i :: rest =>
    decideTurn deflt available i ::
      chatDecisions deflt available gen (chatTurn deflt available gen msgs i) rest

/-- The override recognizer implicit in the elif chain of cli.py lines
84-101: the provider named by a recognized two-character marker, if any. -/
def overrideOf (input : String) : Option String :=
  if pyStartsWith input "g:" then some "gemini"
  else if pyStartsWith input "o:" then some "openai"
  else if pyStartsWith input "c:" then some "claude"
  else none

/-- cli.py lines 172-175: the fixed persona system turn. -/
def systemPrompt : Message :=
  ⟨"system", "You are Jarvis, a brilliant AI assistant with a witty personality. Keep responses short, precise, and to the point. Be helpful and slightly witty, but concise."⟩

/-- Outcome of `chat` session start (cli.py lines 136-186): either the
fatal no-providers exit (before any transcript or handle exists), or a
started session with its chosen provider, initial transcript and the
constructed default handle. -/
inductive SessionStart where
  | failure (message : String) (exitCode : Nat)
  | started (chosen : String) (transcript : List Message) (handle : Except String ProviderHandle)
deriving Repr

/-- cli.py lines 136-186: the `chat` command. `pick` abstracts
`random.choice`. With zero available providers the command prints the
fatal message and exits with code 1 before building the transcript or any
handle; otherwise it picks the provider, builds the one-system-turn
transcript and constructs the default handle. -/
def chat (providerOpt : Option String) (pick : List String → String) (config : Config) :
    SessionStart :=
  let available := config.get_available_providers
  if available.isEmpty then
    SessionStart.failure "No providers configured. Run 'jarvis setup' first." 1
  else
    let chosen :=
      match providerOpt with
      | some p => if available.contains p then p else pick available
      | none => pick available
    SessionStart.started chosen [systemPrompt] (get_provider chosen config)

/-
  Heap model for the frame property (C9). Python dicts and lists are
  mutable objects; to state that `GeminiProvider.generate_response` never
  mutates the caller's message dicts we re-run its history construction
  over an explicit object heap, where the input transcript is a list of
  addresses of message dicts and the in-place write
  `history[0]["parts"][0] = ...` is an update at the parts-list address
  held by the first constructed turn dict.
-/

/-- A heap object: a caller-owned message dict, a constructed Gemini turn
dict (whose `"parts"` field is a reference to a parts list), or a parts
list. -/
inductive PyObj where
  | msgDict (role content : String)
  | turnDict (role : String) (partsAddr : Nat)
  | partsList (items : List String)
deriving DecidableEq, Repr

/-- Read the role/content of a message dict at address `a`. -/
def readMsg (h : List PyObj) (a : Nat) : Option (String × String) :=
  match h[a]? with
  | some (PyObj.msgDict r c) => some (r, c)
  | _ => none

/-- Read a whole address list as message dicts. -/
def readMsgs (h : List PyObj) (addrs : List Nat) : List (Option (String × String)) :=
  addrs.map (readMsg h)

/-- providers.py lines 100-107 over the heap: record the last system
content, keep the addresses of the other messages (pure reads, aliasing
the caller's dicts). -/
def heapScan (h : List PyObj) (addrs : List Nat) : Option String × List Nat :=
  addrs.foldl
    (fun acc a =>
      match readMsg h a with
      | some (r, c) => if r = "system" then (some c, acc.2) else (acc.1, acc.2 ++ [a])
      | none => acc)
    (none, [])

/-- providers.py lines 110-115 over the heap: for each filtered message
allocate a fresh parts list `[content]` and a fresh turn dict pointing at
it, returning the grown heap and the addresses of the turn dicts in
order. Allocation appends at the end of the heap. -/
def heapBuildTurns : List PyObj → List Nat → List PyObj × List Nat
  | h, [] => (h, [])
  | h, a :: rest =>
    match readMsg h a with
    | some (r, c) =>
      if r = "user" then
        let h2 := h ++ [PyObj.partsList [c], PyObj.turnDict "user" h.length]
        let res := heapBuildTurns h2 rest
        (res.1, (h.length + 1) :: res.2)
      else if r = "assistant" then
        let h2 := h ++ [PyObj.partsList [c], PyObj.turnDict "model" h.length]
        let res := heapBuildTurns h2 rest
        (res.1, (h.length + 1) :: res.2)
      else heapBuildTurns h rest
    | none => heapBuildTurns h rest

/-- providers.py lines 118-120 over the heap: if there is truthy system
content and the first history turn is a user turn, overwrite the head of
that turn's parts list in place. -/
def heapPrepend (h : List PyObj) (sys : Option String) (hist : List Nat) : List PyObj :=
  match sys with
  | none => h
  | some s =>
    if s = "" then h
    else
      match hist with
      | [] => h
      | t0 :: _ =>
        match h[t0]? with
        | some (PyObj.turnDict r pa) =>
          if r = "user" then
            match h[pa]? with
            | some (PyObj.partsList (p :: ps)) =>
              h.set pa (PyObj.partsList ((s ++ "\n\n" ++ p) :: ps))
            | _ => h
          else h
        | _ => h

/-- providers.py lines 99-120 over the heap: the full Gemini history
construction, returning the final heap and the history addresses. -/
def GeminiProvider.historyHeap (h : List PyObj) (addrs : List Nat) : List PyObj × List Nat :=
  let scan := heapScan h addrs
  let built := heapBuildTurns h scan.2
  (heapPrepend built.1 scan.1 built.2, built.2)

/-! ### Helper lemmas -/

/-- Pumping the denotation of an async generator chunk by chunk reproduces
exactly that sequence of fragments. -/
theorem generate_response_sync_id (g : List String) :
    AIProvider.generate_response_sync g = g := by
  induction g with
  | nil =>
    rw [AIProvider.generate_response_sync]
    simp [anext]
  | cons x xs ih =>
    rw [AIProvider.generate_response_sync]
    simp only [anext]
    rw [ih]

/-- One chat-loop iteration only ever appends to the transcript. -/
theorem chatTurn_grow (deflt : String) (available : List String)
    (gen : String → List Message → List String)
    (msgs : List Message) (input : String) :
    ∃ t, chatTurn deflt available gen msgs input = msgs ++ t := by
  by_cases hd : (decideTurn deflt available input).text = ""
  · exact ⟨[], by simp [chatTurn, hd]⟩
  · exact ⟨[⟨"user", (decideTurn deflt available input).text⟩,
      ⟨"assistant", String.join (gen (decideTurn deflt available input).provider
        (msgs ++ [⟨"user", (decideTurn deflt available input).text⟩]))⟩],
      by simp [chatTurn, hd, List.append_assoc]⟩

/-- Running the chat loop over any input sequence only ever appends. -/
theorem chatRun_grow (deflt : String) (available : List String)
    (gen : String → List Message → List String)
    (msgs : List Message) (inputs : List String) :
    ∃ t, chatRun deflt available gen msgs inputs = msgs ++ t := by
  induction inputs generalizing msgs with
  | nil => exact ⟨[], by simp [chatRun]⟩
  | cons i rest ih =>
    obtain ⟨t1, h1⟩ := chatTurn_grow deflt available gen msgs i
    obtain ⟨t2, h2⟩ := ih (chatTurn deflt available gen msgs i)
    exact ⟨t1 ++ t2, by rw [chatRun, h2, h1, List.append_assoc]⟩

/-- Every loop iteration computes its decision from the default provider,
the availability set and that iteration's input alone. -/
theorem chatDecisions_getElem (deflt : String) (available : List String)
    (gen : String → List Message → List String)
    (msgs : List Message) (inputs : List String) (k : Nat) :
    (chatDecisions deflt available gen msgs inputs)[k]? =
      (inputs[k]?).map (decideTurn deflt available) := by
  induction inputs generalizing msgs k with
  | nil => simp [chatDecisions]
  | cons i rest ih =>
    cases k with
    | zero => simp [chatDecisions]
    | succ k => simp [chatDecisions, ih]

/-- The Gemini heap construction only allocates: the final heap extends
the initial one. -/
theorem heapBuildTurns_append (rest : List Nat) :
    ∀ h : List PyObj, ∃ t, (heapBuildTurns h rest).1 = h ++ t := by
  induction rest with
  | nil => intro h; exact ⟨[], by simp [heapBuildTurns]⟩
  | cons a as ih =>
    intro h
    cases hr : readMsg h a with
    | none =>
      obtain ⟨t, ht⟩ := ih h
      exact ⟨t, by rw [heapBuildTurns, hr]; exact ht⟩
    | some rc =>
      obtain ⟨r, c⟩ := rc
      by_cases hu : r = "user"
      · obtain ⟨t, ht⟩ := ih (h ++ [PyObj.partsList [c], PyObj.turnDict "user" h.length])
        refine ⟨[PyObj.partsList [c], PyObj.turnDict "user" h.length] ++ t, ?_⟩
        rw [heapBuildTurns, hr]
        simp [hu, ht, List.append_assoc]
      · by_cases hasst : r = "assistant"
        · obtain ⟨t, ht⟩ := ih (h ++ [PyObj.partsList [c], PyObj.turnDict "model" h.length])
          refine ⟨[PyObj.partsList [c], PyObj.turnDict "model" h.length] ++ t, ?_⟩
          rw [heapBuildTurns, hr]
          simp [hu, hasst, ht, List.append_assoc]
        · obtain ⟨t, ht⟩ := ih h
          exact ⟨t, by rw [heapBuildTurns, hr]; simp [hu, hasst]; exact ht⟩

/-- Every history address returned by the heap construction holds a turn
dict whose parts reference points into the freshly allocated region (at
or beyond the initial heap length). -/
theorem heapBuildTurns_hist (rest : List Nat) :
    ∀ (h : List PyObj) (ta : Nat), ta ∈ (heapBuildTurns h rest).2 →
      ∃ r pa, ((heapBuildTurns h rest).1)[ta]? = some (PyObj.turnDict r pa) ∧
        h.length ≤ pa := by
  induction rest with
  | nil => intro h ta hta; simp [heapBuildTurns] at hta
  | cons a as ih =>
    intro h ta hta
    cases hr : readMsg h a with
    | none =>
      rw [heapBuildTurns, hr] at hta
      exact (by rw [heapBuildTurns, hr]; exact ih h ta hta)
    | some rc =>
      obtain ⟨r, c⟩ := rc
      by_cases hu : r = "user"
      · have key : heapBuildTurns h (a :: as) =
            ((heapBuildTurns (h ++ [PyObj.partsList [c], PyObj.turnDict "user" h.length]) as).1,
              (h.length + 1) ::
                (heapBuildTurns (h ++ [PyObj.partsList [c], PyObj.turnDict "user" h.length]) as).2) := by
          rw [heapBuildTurns, hr]
          simp [hu]
        rw [key] at hta ⊢
        rcases List.mem_cons.mp hta with h0 | hmem
        · subst h0
          obtain ⟨t, ht⟩ := heapBuildTurns_append as
            (h ++ [PyObj.partsList [c], PyObj.turnDict "user" h.length])
        -- look the fresh turn dict up below the later allocations
          refine ⟨"user", h.length, ?_, Nat.le_refl _⟩
          rw [ht, List.getElem?_append_left (by simp), List.getElem?_append_right (Nat.le_succ_of_le (Nat.le_refl _))]
          simp
        · obtain ⟨r2, pa, hlook, hle⟩ := ih _ ta hmem
          refine ⟨r2, pa, hlook, le_trans ?_ hle⟩
          simp
      · by_cases hasst : r = "assistant"
        · have key : heapBuildTurns h (a :: as) =
              ((heapBuildTurns (h ++ [PyObj.partsList [c], PyObj.turnDict "model" h.length]) as).1,
                (h.length + 1) ::
                  (heapBuildTurns (h ++ [PyObj.partsList [c], PyObj.turnDict "model" h.length]) as).2) := by
            rw [heapBuildTurns, hr]
            simp [hu, hasst]
          rw [key] at hta ⊢
          rcases List.mem_cons.mp hta with h0 | hmem
          · subst h0
            obtain ⟨t, ht⟩ := heapBuildTurns_append as
              (h ++ [PyObj.partsList [c], PyObj.turnDict "model" h.length])
            refine ⟨"model", h.length, ?_, Nat.le_refl _⟩
            rw [ht, List.getElem?_append_left (by simp), List.getElem?_append_right (Nat.le_succ_of_le (Nat.le_refl _))]
            simp
          · obtain ⟨r2, pa, hlook, hle⟩ := ih _ ta hmem
            refine ⟨r2, pa, hlook, le_trans ?_ hle⟩
            simp
        · rw [heapBuildTurns, hr] at hta
          simp only [hu, hasst, if_false] at hta
          rw [heapBuildTurns, hr]
          simp only [hu, hasst, if_false]
          exact ih h ta hta

/-- The in-place system prepend only writes at a parts address that every
history head points at; any address below a bound that is at most that
parts address is untouched. -/
theorem heapPrepend_frame (H : List PyObj) (sys : Option String) (hist : List Nat)
    (n a : Nat) (ha : a < n)
    (hhist : ∀ t0 r pa, hist.head? = some t0 →
      H[t0]? = some (PyObj.turnDict r pa) → n ≤ pa) :
    (heapPrepend H sys hist)[a]? = H[a]? := by
  cases sys with
  | none => rfl
  | some s =>
    by_cases hs : s = ""
    · simp [heapPrepend, hs]
    · cases hist with
      | nil => simp [heapPrepend, hs]
      | cons t0 hrest =>
        cases hT : H[t0]? with
        | none => simp [heapPrepend, hs, hT]
        | some obj =>
          cases obj with
          | msgDict r c => simp [heapPrepend, hs, hT]
          | partsList items => simp [heapPrepend, hs, hT]
          | turnDict r pa =>
            by_cases hr2 : r = "user"
            · cases hP : H[pa]? with
              | none => simp [heapPrepend, hs, hT, hr2, hP]
              | some obj2 =>
                cases obj2 with
                | msgDict r2 c2 => simp [heapPrepend, hs, hT, hr2, hP]
                | turnDict r2 pa2 => simp [heapPrepend, hs, hT, hr2, hP]
                | partsList items =>
                  cases items with
                  | nil => simp [heapPrepend, hs, hT, hr2, hP]
                  | cons p ps =>
                    have hne : pa ≠ a := by
                      have := hhist t0 r pa rfl hT
                      omega
                    simp only [heapPrepend, hs, hT, hr2, hP, if_false, if_true]
                    exact List.getElem?_set_ne hne
            · simp [heapPrepend, hs, hT, hr2]

/-- Lookups below the initial heap length are untouched by the whole
Gemini history construction. -/
theorem historyHeap_frame (h : List PyObj) (addrs : List Nat) (a : Nat)
    (ha : a < h.length) :
    ((GeminiProvider.historyHeap h addrs).1)[a]? = h[a]? := by
  obtain ⟨t, ht⟩ := heapBuildTurns_append (heapScan h addrs).2 h
  have hframe : ((heapBuildTurns h (heapScan h addrs).2).1)[a]? = h[a]? := by
    rw [ht]
    exact List.getElem?_append_left ha
  have hpre : (heapPrepend (heapBuildTurns h (heapScan h addrs).2).1 (heapScan h addrs).1
      (heapBuildTurns h (heapScan h addrs).2).2)[a]? =
      ((heapBuildTurns h (heapScan h addrs).2).1)[a]? := by
    apply heapPrepend_frame _ _ _ h.length a ha
    intro t0 r pa h0 hT
    have hmem : t0 ∈ (heapBuildTurns h (heapScan h addrs).2).2 := by
      cases hlist : (heapBuildTurns h (heapScan h addrs).2).2 with
      | nil => rw [hlist] at h0; simp at h0
      | cons x xs =>
        rw [hlist] at h0
        simp at h0
        rw [h0]
        exact List.mem_cons_self t0 xs
    obtain ⟨r2, pa2, hlook, hle⟩ := heapBuildTurns_hist (heapScan h addrs).2 h t0 hmem
    rw [hT] at hlook
    simp only [Option.some.injEq, PyObj.turnDict.injEq] at hlook
    omega
  rw [GeminiProvider.historyHeap]
  rw [hpre, hframe]

/-! ### Claim theorems -/

/-- C1: for every transcript and each adapter variant, a vendor failure is
caught at the adapter boundary and surfaces as a single fragment
`"Error: <message>"` — the last fragment of the (always finite) yielded
sequence for the streaming adapters, and the only fragment for Gemini.
That `generate_response` never raises and yields a finite fragment list is
carried by the embedding: each adapter is a total function into
`List String`. -/
theorem generate_response_error_boundary
    (messages : List Message) (v : VendorStream) (e : String)
    (hv : v.failure = some e) :
    (OpenAIProvider.generate_response messages v).getLast? = some ("Error: " ++ e) ∧
    (AnthropicProvider.generate_response messages v).getLast? = some ("Error: " ++ e) ∧
    GeminiProvider.generate_response messages (GeminiOutcome.failure e) = ["Error: " ++ e] := by
  refine ⟨?_, ?_, rfl⟩ <;>
    simp [OpenAIProvider.generate_response, AnthropicProvider.generate_response,
      errorFragments, hv, List.getLast?_concat]

/-- Witness for C1 at a concrete mid-stream failure. -/
theorem generate_response_error_boundary_witness :
    (VendorStream.mk [some "hi"] (some "boom")).failure = some "boom" ∧
    ((OpenAIProvider.generate_response [] ⟨[some "hi"], some "boom"⟩).getLast? =
        some ("Error: " ++ "boom") ∧
      (AnthropicProvider.generate_response [] ⟨[some "hi"], some "boom"⟩).getLast? =
        some ("Error: " ++ "boom") ∧
      GeminiProvider.generate_response [] (GeminiOutcome.failure "boom") =
        ["Error: " ++ "boom"]) :=
  ⟨rfl, generate_response_error_boundary [] ⟨[some "hi"], some "boom"⟩ "boom" rfl⟩

/-- C2 counterexample: with an empty system content the claimed turns list
is not produced — Python `if system_content and history:` treats the empty
string as falsy, so nothing is prepended to the first user turn. -/
theorem gemini_history_empty_system_counterexample :
    GeminiProvider.history
        [⟨"system", ""⟩, ⟨"user", "a"⟩, ⟨"assistant", "b"⟩, ⟨"user", "c"⟩] ≠
      [⟨"user", ["\n\na"]⟩, ⟨"model", ["b"]⟩, ⟨"user", ["c"]⟩] := by
  decide

/-- C2 (amended): for a transcript `[system(s), user(a), assistant(b),
user(c)]` with non-empty system content the Gemini adapter builds
`[user(s ++ "\n\n" ++ a), model(b), user(c)]`; when there is no leading
user turn to attach to, the system content is dropped silently and the
rest of the mapping is unchanged (empty system content is likewise
dropped, as the counterexample shows). -/
theorem gemini_history_mapping (s a b c : String) (hs : s ≠ "") :
    GeminiProvider.history [⟨"system", s⟩, ⟨"user", a⟩, ⟨"assistant", b⟩, ⟨"user", c⟩] =
      [⟨"user", [s ++ "\n\n" ++ a]⟩, ⟨"model", [b]⟩, ⟨"user", [c]⟩] ∧
    GeminiProvider.history [⟨"system", s⟩, ⟨"assistant", b⟩, ⟨"user", c⟩] =
      [⟨"model", [b]⟩, ⟨"user", [c]⟩] ∧
    GeminiProvider.history [⟨"system", s⟩] = [] := by
  refine ⟨?_, ?_, ?_⟩ <;>
    simp [GeminiProvider.history, geminiSplit, geminiTurns, prependSystem, hs]

/-- Witness for C2 at concrete contents. -/
theorem gemini_history_mapping_witness :
    ("s" : String) ≠ "" ∧
    (GeminiProvider.history [⟨"system", "s"⟩, ⟨"user", "a"⟩, ⟨"assistant", "b"⟩, ⟨"user", "c"⟩] =
        [⟨"user", ["s" ++ "\n\n" ++ "a"]⟩, ⟨"model", ["b"]⟩, ⟨"user", ["c"]⟩] ∧
      GeminiProvider.history [⟨"system", "s"⟩, ⟨"assistant", "b"⟩, ⟨"user", "c"⟩] =
        [⟨"model", ["b"]⟩, ⟨"user", ["c"]⟩] ∧
      GeminiProvider.history [⟨"system", "s"⟩] = []) :=
  ⟨by decide, gemini_history_mapping "s" "a" "b" "c" (by decide)⟩

/-- C3: the Anthropic adapter flattens the transcript by rendering each
turn as capitalized role, colon-space, content, joined by newlines with a
trailing `"\nAssistant:"` cue; for `[system(s), user(a)]` the prompt is
exactly `"System: s\nUser: a\nAssistant:"`. -/
theorem anthropic_prompt_flattening (s a : String) :
    AnthropicProvider.prompt [⟨"system", s⟩, ⟨"user", a⟩] =
      "System: " ++ s ++ "\nUser: " ++ a ++ "\nAssistant:" := by
  show ((("System: " ++ s) ++ "\n") ++ ("User: " ++ a)) ++ "\nAssistant:" =
    "System: " ++ s ++ "\nUser: " ++ a ++ "\nAssistant:"
  simp only [String.append_assoc]
  rw [← String.append_assoc "\n" "User: "]
  rfl

/-- C4: override parsing in the chat loop — `"o: hello"` with OpenAI
available selects the OpenAI handle for the turn and appends user turn
`"hello"`; `"o:"` alone strips to empty and abandons the turn without
touching the transcript although the marker was recognized; `"x: hello"`
matches no marker and is sent literally via the default handle. -/
theorem override_parsing_scenarios (deflt : String)
    (gen : String → List Message → List String) (msgs : List Message) :
    decideTurn deflt ["openai"] "o: hello" = ⟨"openai", "hello", false⟩ ∧
    chatTurn deflt ["openai"] gen msgs "o: hello" =
      msgs ++ [⟨"user", "hello"⟩,
        ⟨"assistant", String.join (gen "openai" (msgs ++ [⟨"user", "hello"⟩]))⟩] ∧
    chatTurn deflt ["openai"] gen msgs "o:" = msgs ∧
    decideTurn deflt ["openai"] "x: hello" = ⟨deflt, "x: hello", false⟩ ∧
    chatTurn deflt ["openai"] gen msgs "x: hello" =
      msgs ++ [⟨"user", "x: hello"⟩,
        ⟨"assistant", String.join (gen deflt (msgs ++ [⟨"user", "x: hello"⟩]))⟩] := by
  refine ⟨rfl, ?_, rfl, rfl, ?_⟩
  · show (msgs ++ [⟨"user", "hello"⟩]) ++
        [⟨"assistant", String.join (gen "openai" (msgs ++ [⟨"user", "hello"⟩]))⟩] = _
    rw [List.append_assoc]
    rfl
  · show (msgs ++ [⟨"user", "x: hello"⟩]) ++
        [⟨"assistant", String.join (gen deflt (msgs ++ [⟨"user", "x: hello"⟩]))⟩] = _
    rw [List.append_assoc]
    rfl

/-- C5: a recognized override marker naming an unavailable provider still
has the marker stripped, raises the warning, and falls back to the
session default for that turn; and every iteration's decision is a
function of the session default, the availability set and that
iteration's own input only — the active handle resets to the default each
time round the loop, so no override leaks into a later turn. -/
theorem override_single_turn (deflt : String) (available : List String)
    (input p : String) (gen : String → List Message → List String)
    (msgs : List Message) (inputs : List String) (k : Nat)
    (hp : overrideOf input = some p) (hun : available.contains p = false) :
    decideTurn deflt available input = ⟨deflt, pyStrip (pyDrop input 2), true⟩ ∧
    (chatDecisions deflt available gen msgs inputs)[k]? =
      (inputs[k]?).map (decideTurn deflt available) := by
  refine ⟨?_, chatDecisions_getElem deflt available gen msgs inputs k⟩
  have hm : p ∉ available := by simpa using hun
  by_cases h1 : pyStartsWith input "g:"
  · simp only [overrideOf, h1] at hp
    simp only [if_true, Option.some.injEq] at hp
    subst hp
    simp [decideTurn, h1, hm]
  · by_cases h2 : pyStartsWith input "o:"
    · simp [overrideOf, h1, h2] at hp
      subst hp
      simp [decideTurn, h1, h2, hm]
    · by_cases h3 : pyStartsWith input "c:"
      · simp [overrideOf, h1, h2, h3] at hp
        subst hp
        simp [decideTurn, h1, h2, h3, hm]
      · simp [overrideOf, h1, h2, h3] at hp

/-- Witness for C5: `"o: hi"` with only Claude available. -/
theorem override_single_turn_witness :
    overrideOf "o: hi" = some "openai" ∧
    (["claude"] : List String).contains "openai" = false ∧
    (decideTurn "claude" ["claude"] "o: hi" =
        ⟨"claude", pyStrip (pyDrop "o: hi" 2), true⟩ ∧
      (chatDecisions "claude" ["claude"] (fun _ _ => []) [] ["x"])[0]? =
        ((["x"] : List String)[0]?).map (decideTurn "claude" ["claude"])) :=
  ⟨by decide, by decide,
    override_single_turn "claude" ["claude"] "o: hi" "openai" (fun _ _ => [])
      [] ["x"] 0 (by decide) (by decide)⟩

/-- C6: within a session the transcript only grows — after any sequence of
iterations the prior transcript is a literal prefix of the new one — and a
completed turn with non-empty post-stripping text appends exactly two
messages: the user turn with that text, then the assistant turn holding
the concatenation, in order, of the fragments yielded by the selected
provider on the grown transcript. -/
theorem transcript_append_only (deflt : String) (available : List String)
    (gen : String → List Message → List String) (msgs : List Message)
    (inputs : List String) (input : String)
    (hsend : (decideTurn deflt available input).text ≠ "") :
    (∃ t, chatRun deflt available gen msgs inputs = msgs ++ t) ∧
    chatTurn deflt available gen msgs input =
      msgs ++ [⟨"user", (decideTurn deflt available input).text⟩,
        ⟨"assistant", String.join (gen (decideTurn deflt available input).provider
          (msgs ++ [⟨"user", (decideTurn deflt available input).text⟩]))⟩] := by
  refine ⟨chatRun_grow deflt available gen msgs inputs, ?_⟩
  simp [chatTurn, hsend, List.append_assoc]

/-- Witness for C6 at a concrete turn. -/
theorem transcript_append_only_witness :
    (decideTurn "openai" ["openai"] "hi").text ≠ "" ∧
    ((∃ t, chatRun "openai" ["openai"] (fun _ _ => ["ok"]) [systemPrompt] ["hi"] =
        [systemPrompt] ++ t) ∧
      chatTurn "openai" ["openai"] (fun _ _ => ["ok"]) [systemPrompt] "hi" =
        [systemPrompt] ++ [⟨"user", (decideTurn "openai" ["openai"] "hi").text⟩,
          ⟨"assistant", String.join ((fun _ _ => ["ok"]) (decideTurn "openai" ["openai"] "hi").provider
            ([systemPrompt] ++ [⟨"user", (decideTurn "openai" ["openai"] "hi").text⟩]))⟩]) :=
  ⟨by decide,
    transcript_append_only "openai" ["openai"] (fun _ _ => ["ok"]) [systemPrompt]
      ["hi"] "hi" (by decide)⟩

/-- C7: the factory rejects any identifier outside
`{openai, claude, gemini}` with the `"Unknown provider"` error and never
returns a handle there; for a supported identifier whose credential is
present it constructs the matching adapter carrying that credential and
the shared model name, temperature and max-tokens settings. -/
theorem get_provider_dispatch (name : String) (config : Config) (k : String)
    (hname : name ∉ (["openai", "claude", "gemini"] : List String)) :
    get_provider name config = Except.error ("Unknown provider: " ++ name) ∧
    (config.api.openai_api_key = some k →
      get_provider "openai" config = Except.ok
        ⟨AdapterKind.openai, k, config.model.name, config.model.temperature,
          config.model.max_tokens⟩) ∧
    (config.api.anthropic_api_key = some k →
      get_provider "claude" config = Except.ok
        ⟨AdapterKind.anthropic, k, config.model.name, config.model.temperature,
          config.model.max_tokens⟩) ∧
    (config.api.gemini_api_key = some k →
      get_provider "gemini" config = Except.ok
        ⟨AdapterKind.gemini, k, config.model.name, config.model.temperature,
          config.model.max_tokens⟩) := by
  simp only [List.mem_cons, List.not_mem_nil, or_false, not_or] at hname
  obtain ⟨h1, h2, h3⟩ := hname
  refine ⟨by simp [get_provider, h1, h2, h3], ?_, ?_, ?_⟩ <;>
    intro hk <;> simp [get_provider, mkProvider, getSecretValue, hk]

/-- Witness for C7 with the unknown name `"unknown"` and present keys. -/
theorem get_provider_dispatch_witness :
    ("unknown" : String) ∉ (["openai", "claude", "gemini"] : List String) ∧
    (get_provider "unknown" ⟨⟨some "k", some "k", some "k"⟩, ⟨"gpt-4", 1, 1024⟩, "openai"⟩ =
        Except.error ("Unknown provider: " ++ "unknown") ∧
      ((⟨⟨some "k", some "k", some "k"⟩, ⟨"gpt-4", 1, 1024⟩, "openai"⟩ : Config).api.openai_api_key = some "k" →
        get_provider "openai" ⟨⟨some "k", some "k", some "k"⟩, ⟨"gpt-4", 1, 1024⟩, "openai"⟩ =
          Except.ok ⟨AdapterKind.openai, "k", "gpt-4", 1, 1024⟩) ∧
      ((⟨⟨some "k", some "k", some "k"⟩, ⟨"gpt-4", 1, 1024⟩, "openai"⟩ : Config).api.anthropic_api_key = some "k" →
        get_provider "claude" ⟨⟨some "k", some "k", some "k"⟩, ⟨"gpt-4", 1, 1024⟩, "openai"⟩ =
          Except.ok ⟨AdapterKind.anthropic, "k", "gpt-4", 1, 1024⟩) ∧
      ((⟨⟨some "k", some "k", some "k"⟩, ⟨"gpt-4", 1, 1024⟩, "openai"⟩ : Config).api.gemini_api_key = some "k" →
        get_provider "gemini" ⟨⟨some "k", some "k", some "k"⟩, ⟨"gpt-4", 1, 1024⟩, "openai"⟩ =
          Except.ok ⟨AdapterKind.gemini, "k", "gpt-4", 1, 1024⟩)) :=
  ⟨by decide,
    get_provider_dispatch "unknown" ⟨⟨some "k", some "k", some "k"⟩, ⟨"gpt-4", 1, 1024⟩, "openai"⟩
      "k" (by decide)⟩

/-- C8: with zero available providers — no credential present and
non-empty for any vendor — session start fails fatally before any
transcript or handle is constructed (the failure outcome carries
neither); availability is empty exactly when all three keys are
non-truthy. -/
theorem session_start_no_providers (cfg : Config) (popt : Option String)
    (pick : List String → String)
    (h : cfg.get_available_providers = []) :
    chat popt pick cfg =
      SessionStart.failure "No providers configured. Run 'jarvis setup' first." 1 ∧
    (cfg.get_available_providers = [] ↔
      secretTruthy cfg.api.openai_api_key = false ∧
      secretTruthy cfg.api.anthropic_api_key = false ∧
      secretTruthy cfg.api.gemini_api_key = false) := by
  constructor
  · simp [chat, h]
  · cases h1 : secretTruthy cfg.api.openai_api_key <;>
      cases h2 : secretTruthy cfg.api.anthropic_api_key <;>
      cases h3 : secretTruthy cfg.api.gemini_api_key <;>
      simp [Config.get_available_providers, h1, h2, h3]

/-- Witness for C8: one absent key, one empty key, one absent key. -/
theorem session_start_no_providers_witness :
    (⟨⟨none, some "", none⟩, ⟨"gpt-4", 1, 1024⟩, "openai"⟩ : Config).get_available_providers = [] ∧
    (chat none (fun _ => "openai") ⟨⟨none, some "", none⟩, ⟨"gpt-4", 1, 1024⟩, "openai"⟩ =
        SessionStart.failure "No providers configured. Run 'jarvis setup' first." 1 ∧
      ((⟨⟨none, some "", none⟩, ⟨"gpt-4", 1, 1024⟩, "openai"⟩ : Config).get_available_providers = [] ↔
        secretTruthy (⟨⟨none, some "", none⟩, ⟨"gpt-4", 1, 1024⟩, "openai"⟩ : Config).api.openai_api_key = false ∧
        secretTruthy (⟨⟨none, some "", none⟩, ⟨"gpt-4", 1, 1024⟩, "openai"⟩ : Config).api.anthropic_api_key = false ∧
        secretTruthy (⟨⟨none, some "", none⟩, ⟨"gpt-4", 1, 1024⟩, "openai"⟩ : Config).api.gemini_api_key = false)) :=
  ⟨by decide,
    session_start_no_providers ⟨⟨none, some "", none⟩, ⟨"gpt-4", 1, 1024⟩, "openai"⟩
      none (fun _ => "openai") (by decide)⟩

/-- C10: for every adapter and transcript the synchronous wrapper yields
exactly the fragment sequence of the asynchronous generator it pumps —
nothing added, dropped or reordered, terminating exactly when the
underlying sequence ends. -/
theorem generate_response_sync_refines (messages : List Message)
    (v : VendorStream) (r : GeminiOutcome) :
    AIProvider.generate_response_sync (OpenAIProvider.generate_response messages v) =
      OpenAIProvider.generate_response messages v ∧
    AIProvider.generate_response_sync (AnthropicProvider.generate_response messages v) =
      AnthropicProvider.generate_response messages v ∧
    AIProvider.generate_response_sync (GeminiProvider.generate_response messages r) =
      GeminiProvider.generate_response messages r :=
  ⟨generate_response_sync_id _, generate_response_sync_id _, generate_response_sync_id _⟩

/-- C9: the generate operation leaves the caller's message list unchanged.
In the heap model of the only adapter that writes anything — Gemini, whose
history construction allocates fresh turn dicts and parts lists and then
rewrites `history[0]["parts"][0]` in place — every pre-existing heap cell,
and hence every entry of the input message list (same role and content at
every address, same length by `readMsgs` being a map over the same
addresses), reads back unchanged after the construction; the OpenAI and
Anthropic adapters are embedded as pure read-only functions of the
message list because their source performs no write to it. -/
theorem gemini_generate_frame (h : List PyObj) (addrs : List Nat) (a : Nat)
    (ha : a < h.length) (haddrs : ∀ x ∈ addrs, x < h.length) :
    ((GeminiProvider.historyHeap h addrs).1)[a]? = h[a]? ∧
    readMsgs (GeminiProvider.historyHeap h addrs).1 addrs = readMsgs h addrs := by
  refine ⟨historyHeap_frame h addrs a ha, ?_⟩
  unfold readMsgs
  apply List.map_congr_left
  intro x hx
  unfold readMsg
  rw [historyHeap_frame h addrs x (haddrs x hx)]

/-- Witness for C9 on a two-message transcript heap. -/
theorem gemini_generate_frame_witness :
    (0 < ([PyObj.msgDict "system" "s", PyObj.msgDict "user" "a"] : List PyObj).length) ∧
    (∀ x ∈ ([0, 1] : List Nat),
      x < ([PyObj.msgDict "system" "s", PyObj.msgDict "user" "a"] : List PyObj).length) ∧
    (((GeminiProvider.historyHeap [PyObj.msgDict "system" "s", PyObj.msgDict "user" "a"] [0, 1]).1)[0]? =
        ([PyObj.msgDict "system" "s", PyObj.msgDict "user" "a"] : List PyObj)[0]? ∧
      readMsgs (GeminiProvider.historyHeap [PyObj.msgDict "system" "s", PyObj.msgDict "user" "a"] [0, 1]).1 [0, 1] =
        readMsgs [PyObj.msgDict "system" "s", PyObj.msgDict "user" "a"] [0, 1]) :=
  ⟨by decide, by decide,
    gemini_generate_frame [PyObj.msgDict "system" "s", PyObj.msgDict "user" "a"] [0, 1] 0
      (by decide) (by decide)⟩

end Jarvis
